import Mathlib

/-!
Verification of the house-price-predictor backend core.

Shallow embedding of `src/backend/src/model_training.py`,
`src/backend/src/explainer.py` and the schema-reduction step of
`src/backend/app.py`. Machine floats are modelled by `ℚ`; where the
Python code can produce a non-finite float (division by zero), the
embedding makes that explicit (`Option`) or is noted at the theorem.
The trained ensemble of `HousePriceModel` contains exactly the two
learners created by `_create_base_models`: `xgboost` and `lightgbm`
(CatBoost was removed, see the comment at model_training.py line 20),
so a trained model's per-learner data is a pair.
-/

namespace HousePrice

/-- The learner names created by `HousePriceModel._create_base_models`
(model_training.py lines 36-58): exactly `xgboost` and `lightgbm`. -/
def baseModelNames : List String := ["xgboost", "lightgbm"]

/-! ## Ensemble training: blend weights (model_training.py lines 89-91) -/

/-- Blend-weight computation of `HousePriceModel.train`
(model_training.py lines 90-91):
`total_r2 = sum(model_r2_scores.values())` and
`weights = {name: r2 / total_r2}`. The input is the association list of
per-learner r2 scores; there is no clipping of negative or zero r2
anywhere in the source. -/
def trainWeights (scores : List (String × ℚ)) : List (String × ℚ) :=
  scores.map (fun s => (s.1, s.2 / (scores.map Prod.snd).sum))

/-! ## Regression metrics (model_training.py lines 116-123) -/

/-- `np.mean` of a list, `sum / length` (with the `ℚ` convention
`x / 0 = 0` for the empty list, which numpy renders as NaN). -/
def mean (l : List ℚ) : ℚ := l.sum / l.length

/-- Float division as the source performs it, made definedness-explicit:
`none` models the non-finite float (inf or NaN) that numpy produces when
the divisor is zero. -/
def fdiv (a b : ℚ) : Option ℚ := if b = 0 then none else some (a / b)

/-- The mape metric of `HousePriceModel._calculate_metrics`
(model_training.py line 122):
`np.mean(np.abs((y_true - y_pred) / y_true)) * 100`, elementwise over the
test partition. A zero true value makes the elementwise division
non-finite, which propagates through mean; this is modelled by `none`. -/
def mape (y_true y_pred : List ℚ) : Option ℚ :=
  (((y_true.zip y_pred).mapM (fun p => fdiv (p.1 - p.2) p.1)).map
    (fun l => l.map abs)).map (fun l => mean l * 100)

/-! ## Prediction (model_training.py lines 125-157) -/

/-- Result dictionary of `HousePriceModel.predict`
(model_training.py lines 151-157). -/
structure PredictionResult where
  predicted_price : ℚ
  price_lower : ℚ
  price_upper : ℚ
  confidence : ℚ
  xgboost_pred : ℚ
  lightgbm_pred : ℚ
  deriving Repr, DecidableEq

/-- `np.mean` of the two per-learner predictions (model_training.py
line 143): the ensemble holds exactly the two learners of
`_create_base_models`. -/
def npMean2 (a b : ℚ) : ℚ := (a + b) / 2

/-- `np.std` (population standard deviation) of the two per-learner
predictions (model_training.py line 144). For a two-element sample the
population standard deviation is exactly half the absolute gap:
`sqrt(((a-m)^2 + (b-m)^2) / 2) = |a-b| / 2` with `m = (a+b)/2`,
so no square root is needed in the embedding. -/
def npStd2 (a b : ℚ) : ℚ := |a - b| / 2

/-- `npStd2` is the population standard deviation: it is non-negative and
its square is the mean squared deviation of the two samples. -/
theorem npStd2_spec (a b : ℚ) :
    0 ≤ npStd2 a b ∧
      (npStd2 a b) ^ 2 = ((a - npMean2 a b) ^ 2 + (b - npMean2 a b) ^ 2) / 2 := by
  constructor
  · exact div_nonneg (abs_nonneg _) (by norm_num)
  · rw [npStd2, npMean2, div_pow, sq_abs]
    ring

/-- Core arithmetic of `HousePriceModel.predict`
(model_training.py lines 138-157), after the untrained check and the
column selection: weighted-sum point estimate, 95% interval
`estimate ± 1.96 * std` with the lower bound floored at zero by
`max(0, ...)` (line 148), and the dispersion-relative confidence with
fallback 0.8 (line 155). `1.96 = 49/25`. -/
def predictCore (w_xgb w_lgb p_xgb p_lgb : ℚ) : PredictionResult :=
  let ensemble_pred := w_xgb * p_xgb + w_lgb * p_lgb
  let mean_pred := npMean2 p_xgb p_lgb
  let std_pred := npStd2 p_xgb p_lgb
  let confidence_margin := 49 / 25 * std_pred
  let lower_bound := max 0 (ensemble_pred - confidence_margin)
  let upper_bound := ensemble_pred + confidence_margin
  { predicted_price := ensemble_pred
    price_lower := lower_bound
    price_upper := upper_bound
    confidence := if mean_pred > 0 then 1 - std_pred / mean_pred else 4 / 5
    xgboost_pred := p_xgb
    lightgbm_pred := p_lgb }

/-- `HousePriceModel.predict` with its untrained guard
(model_training.py lines 127-128): `raise ValueError` when the trained
flag is false, modelled as `Except.error`. -/
def predictE (is_trained : Bool) (w_xgb w_lgb p_xgb p_lgb : ℚ) :
    Except String PredictionResult :=
  if is_trained = false then Except.error "Model not trained yet!"
  else Except.ok (predictCore w_xgb w_lgb p_xgb p_lgb)

/-! ## Schema reduction (model_training.py line 131, app.py lines 175-181) -/

/-- Pandas column selection `X[self.feature_names]`
(model_training.py line 131): select the schema columns, in schema
order, from the input record; a schema column missing from the input is
a `KeyError`, modelled as `none`. Input fields outside the schema are
never read. -/
def selectColumns (schema : List String) (x : List (String × ℚ)) :
    Option (List ℚ) :=
  schema.mapM (fun f => x.lookup f)

/-- The zero-fill loop of the `predict` route in app.py (lines 175-178):
`for feat in model.feature_names: if feat not in input_df.columns:
input_df[feat] = 0`. Existing columns are kept, missing schema features
are appended with value 0. -/
def appZeroFill (schema : List String) (x : List (String × ℚ)) :
    List (String × ℚ) :=
  x ++ (schema.filter (fun f => (x.lookup f).isNone)).map (fun f => (f, 0))

/-- The value an input record gives a feature after zero-filling:
its stored value, or 0 when absent. -/
def lookupOr0 (x : List (String × ℚ)) (f : String) : ℚ :=
  (x.lookup f).getD 0

/-! ## Feature importance (model_training.py lines 159-182) -/

/-- `HousePriceModel.get_feature_importance`
(model_training.py lines 159-182). When the trained flag is false it
returns the empty dictionary (lines 161-162). Otherwise it reads the
importances of `models['xgboost']`, `models['lightgbm']` and
`models['catboost']` in that order (lines 167-176); a learner name
absent from the ensemble dictionary is a `KeyError`, modelled as
`Except.error`. On success it returns the three per-learner maps plus
their elementwise average (lines 178-180). -/
def getFeatureImportance (is_trained : Bool)
    (models : List (String × List ℚ)) (feature_names : List String) :
    Except String (List (String × List (String × ℚ))) :=
  if is_trained = false then Except.ok []
  else
    match models.lookup "xgboost" with
    | none => Except.error "KeyError: xgboost"
    | some xgb_imp =>
      match models.lookup "lightgbm" with
      | none => Except.error "KeyError: lightgbm"
      | some lgb_imp =>
        match models.lookup "catboost" with
        | none => Except.error "KeyError: catboost"
        | some cat_imp =>
          let avg_imp := (xgb_imp.zip (lgb_imp.zip cat_imp)).map
            (fun t => (t.1 + t.2.1 + t.2.2) / 3)
          Except.ok
            [("xgboost", feature_names.zip xgb_imp),
             ("lightgbm", feature_names.zip lgb_imp),
             ("catboost", feature_names.zip cat_imp),
             ("average", feature_names.zip avg_imp)]

/-! ## Similarity and market comparison (explainer.py lines 100-153) -/

/-- Distance-to-similarity conversion of `get_similar_properties`
(explainer.py line 122): `1 / (1 + dist)`. -/
def similarity_score (d : ℚ) : ℚ := 1 / (1 + d)

/-- Verdict dictionary of `compare_to_market`
(explainer.py lines 131-153). The empty-input branch returns only the
status and the zero deviation (line 132), so the average is optional.
The templated suggestion string formats floats and is not modelled. -/
structure MarketComparison where
  status : String
  difference_pct : ℚ
  avg_similar_price : Option ℚ
  deriving Repr, DecidableEq

/-- `compare_to_market` (explainer.py lines 129-153): empty guard, then
`avg_similar = np.mean(similar_prices)`,
`difference_pct = (predicted_price - avg_similar) / avg_similar * 100`,
classified by the strict thresholds 10 and -10. The only guard is the
emptiness check on line 131; the division is performed for every
non-empty list (in `ℚ` a zero divisor yields 0 where numpy would yield
a non-finite float). -/
def compare_to_market (predicted_price : ℚ) (similar_prices : List ℚ) :
    MarketComparison :=
  if similar_prices = [] then
    { status := "unknown", difference_pct := 0, avg_similar_price := none }
  else
    let avg_similar := mean similar_prices
    let difference := predicted_price - avg_similar
    let difference_pct := difference / avg_similar * 100
    if difference_pct > 10 then
      { status := "overpriced", difference_pct := difference_pct
        avg_similar_price := some avg_similar }
    else if difference_pct < -10 then
      { status := "underpriced", difference_pct := difference_pct
        avg_similar_price := some avg_similar }
    else
      { status := "fair", difference_pct := difference_pct
        avg_similar_price := some avg_similar }

/-! ## Helper lemmas -/

/-- Summing a list divided elementwise by a constant divides the sum. -/
theorem sum_map_div (l : List ℚ) (c : ℚ) :
    (l.map (fun x => x / c)).sum = l.sum / c := by
  induction l with
  | nil => simp
  | cons a t ih => simp [ih, add_div]

/-- Unfolding lemma for `List.lookup` on a cons cell with an explicit
pair. -/
theorem lookup_cons (k a : String) (b : ℚ) (t : List (String × ℚ)) :
    List.lookup k ((a, b) :: t) =
      cond (k == a) (some b) (List.lookup k t) := by
  simp only [List.lookup]
  cases k == a <;> rfl

/-- A key found in the left part of an appended association list is
found in the whole list with the same value. -/
theorem lookup_append_some {xs ys : List (String × ℚ)} {k : String}
    {v : ℚ} (h : xs.lookup k = some v) : (xs ++ ys).lookup k = some v := by
  induction xs with
  | nil => exact Option.noConfusion h
  | cons a t ih =>
    obtain ⟨a1, a2⟩ := a
    rw [List.cons_append, lookup_cons]
    rw [lookup_cons] at h
    cases hk : k == a1 with
    | true =>
      rw [hk] at h
      exact h
    | false =>
      rw [hk] at h
      exact ih h

/-- A key absent from the left part of an appended association list is
looked up in the right part. -/
theorem lookup_append_none {xs ys : List (String × ℚ)} {k : String}
    (h : xs.lookup k = none) : (xs ++ ys).lookup k = ys.lookup k := by
  induction xs with
  | nil => rfl
  | cons a t ih =>
    obtain ⟨a1, a2⟩ := a
    rw [List.cons_append, lookup_cons]
    rw [lookup_cons] at h
    cases hk : k == a1 with
    | true =>
      rw [hk] at h
      exact Option.noConfusion h
    | false =>
      rw [hk] at h
      exact ih h

/-- Looking up a member of a constant-valued association list built by
`map` yields that constant. -/
theorem lookup_map_const {l : List String} {k : String} (hk : k ∈ l)
    (c : ℚ) : (l.map (fun f => (f, c))).lookup k = some c := by
  induction l with
  | nil => exact absurd hk (List.not_mem_nil k)
  | cons a t ih =>
    rw [List.map_cons, lookup_cons]
    cases hka : k == a with
    | true => rfl
    | false =>
      rcases List.mem_cons.mp hk with h | h
      · rw [h, beq_self_eq_true] at hka
        exact Bool.noConfusion hka
      · exact ih h

/-- `mapM` over `Option` succeeds pointwise: if the function returns
`some (h a)` on every member, the traversal returns the mapped list. -/
theorem mapM_eq_some_map {α β : Type} {l : List α} {g : α → Option β}
    {h : α → β} (hg : ∀ a ∈ l, g a = some (h a)) :
    l.mapM g = some (l.map h) := by
  induction l with
  | nil => rfl
  | cons a t ih =>
    rw [List.mapM_cons, hg a (List.mem_cons_self a t),
      ih (fun x hx => hg x (List.mem_cons_of_mem a hx))]
    rfl

/-- After the app-level zero-fill, every schema feature looks up to its
zero-defaulted value. -/
theorem appZeroFill_lookup (schema : List String) (x : List (String × ℚ))
    {f : String} (hf : f ∈ schema) :
    (appZeroFill schema x).lookup f = some (lookupOr0 x f) := by
  cases hx : x.lookup f with
  | some v =>
    rw [appZeroFill, lookup_append_some hx, lookupOr0, hx]
    rfl
  | none =>
    rw [appZeroFill, lookup_append_none hx, lookupOr0, hx,
      lookup_map_const (List.mem_filter.mpr ⟨hf, by simp [hx]⟩) 0]
    rfl

/-! ## Claim theorems -/

/-- C1, counterexample. The claim says negative or zero r2 is clipped to
a small positive floor so no learner can receive a negative weight; the
source has no clip. With r2 scores xgboost = -1/2 and lightgbm = 1 the
stored weights are -1 and 2: xgboost receives a negative weight. -/
theorem trainWeights_negative_weight :
    trainWeights [("xgboost", -(1 : ℚ) / 2), ("lightgbm", 1)] =
      [("xgboost", -1), ("lightgbm", 2)] ∧ (-1 : ℚ) < 0 := by
  constructor
  · norm_num [trainWeights]
  · norm_num

/-- C1, amended. When every learner's held-out r2 score is strictly
positive (and there is at least one learner), the weights stored by
`HousePriceModel.train` are all non-negative and sum exactly to 1; the
code performs no clipping, so this positivity assumption is what the
unclipped `r2 / total` formula needs. -/
theorem trainWeights_nonneg_sum_one (scores : List (String × ℚ))
    (hne : scores ≠ []) (hpos : ∀ s ∈ scores, 0 < s.2) :
    (∀ w ∈ trainWeights scores, 0 ≤ w.2) ∧
      ((trainWeights scores).map Prod.snd).sum = 1 := by
  have ht : 0 < (scores.map Prod.snd).sum := by
    refine List.sum_pos _ ?_ ?_
    · intro x hx
      obtain ⟨s, hs, rfl⟩ := List.mem_map.mp hx
      exact hpos s hs
    · simpa using hne
  constructor
  · intro w hw
    obtain ⟨s, hs, rfl⟩ := List.mem_map.mp hw
    exact div_nonneg (le_of_lt (hpos s hs)) (le_of_lt ht)
  · rw [trainWeights, List.map_map]
    have hmap : (scores.map (Prod.snd ∘ fun s =>
        (s.1, s.2 / (scores.map Prod.snd).sum))) =
        (scores.map Prod.snd).map
          (fun x => x / (scores.map Prod.snd).sum) := by
      rw [List.map_map]
      rfl
    rw [hmap, sum_map_div, div_self (ne_of_gt ht)]

/-- C1, witness for the amended theorem at the spec scenario r2 scores
0.9 and 0.7 (weights 0.5625 and 0.4375). -/
theorem trainWeights_nonneg_sum_one_witness :
    (∀ w ∈ trainWeights [("xgboost", (9 : ℚ) / 10), ("lightgbm", 7 / 10)],
      0 ≤ w.2) ∧
      ((trainWeights
        [("xgboost", (9 : ℚ) / 10), ("lightgbm", 7 / 10)]).map Prod.snd).sum
        = 1 :=
  trainWeights_nonneg_sum_one _ (by simp)
    (by
      intro s hs
      rcases List.mem_cons.mp hs with h | h
      · rw [h]
        norm_num
      · rcases List.mem_cons.mp h with h2 | h2
        · rw [h2]
          norm_num
        · exact absurd h2 (List.not_mem_nil s))

/-- C3, counterexample. The claim says `HousePriceModel.predict` itself
zero-fills missing schema features; but the pandas selection
`X[self.feature_names]` raises a `KeyError` (modelled by `none`) when a
schema feature is absent from the input, here schema `["area"]` against
an input having only `bedrooms`. -/
theorem selectColumns_missing_feature :
    selectColumns ["area"] [("bedrooms", (3 : ℚ))] = none := by
  rfl

/-- C3, amended. The zero-fill half of the reduction contract lives in
the app.py predict route, not in `HousePriceModel.predict`: after the
route's zero-fill loop, the model's column selection succeeds on every
input and returns exactly the schema-ordered values, with fields outside
the schema ignored and missing schema features defaulted to zero. -/
theorem selectColumns_after_zero_fill (schema : List String)
    (x : List (String × ℚ)) :
    selectColumns schema (appZeroFill schema x) =
      some (schema.map (lookupOr0 x)) := by
  rw [selectColumns]
  exact mapM_eq_some_map (fun f hf => appZeroFill_lookup schema x hf)

/-- C2, counterexample. The interval ordering
`price_lower ≤ predicted_price` fails when the ensemble point estimate
is negative: with equal weights 1/2 and both learners predicting -100
the point estimate is -100, the dispersion is 0, and the zero floor
lifts `price_lower` to 0, strictly above the point estimate. -/
theorem predict_interval_counterexample :
    (predictCore (1 / 2) (1 / 2) (-100) (-100)).predicted_price = -100 ∧
    (predictCore (1 / 2) (1 / 2) (-100) (-100)).price_lower = 0 ∧
    ¬ (predictCore (1 / 2) (1 / 2) (-100) (-100)).price_lower ≤
        (predictCore (1 / 2) (1 / 2) (-100) (-100)).predicted_price := by
  norm_num [predictCore, npStd2, npMean2]

/-- C2, amended. Whenever the ensemble point estimate is non-negative
(always the case for a price), the prediction of
`HousePriceModel.predict` satisfies
`0 ≤ price_lower ≤ predicted_price ≤ price_upper`, with the interval
equal to the point estimate ± 1.96 times the population standard
deviation of the per-learner predictions and the lower bound floored at
zero; for a negative point estimate the zero floor pushes `price_lower`
above `predicted_price`. -/
theorem predict_interval_ordered (w_xgb w_lgb p_xgb p_lgb : ℚ)
    (h : 0 ≤ (predictCore w_xgb w_lgb p_xgb p_lgb).predicted_price) :
    0 ≤ (predictCore w_xgb w_lgb p_xgb p_lgb).price_lower ∧
    (predictCore w_xgb w_lgb p_xgb p_lgb).price_lower ≤
      (predictCore w_xgb w_lgb p_xgb p_lgb).predicted_price ∧
    (predictCore w_xgb w_lgb p_xgb p_lgb).predicted_price ≤
      (predictCore w_xgb w_lgb p_xgb p_lgb).price_upper ∧
    (predictCore w_xgb w_lgb p_xgb p_lgb).price_upper =
      (predictCore w_xgb w_lgb p_xgb p_lgb).predicted_price +
        49 / 25 * npStd2 p_xgb p_lgb ∧
    (predictCore w_xgb w_lgb p_xgb p_lgb).price_lower =
      max 0 ((predictCore w_xgb w_lgb p_xgb p_lgb).predicted_price -
        49 / 25 * npStd2 p_xgb p_lgb) := by
  have hm : 0 ≤ 49 / 25 * npStd2 p_xgb p_lgb :=
    mul_nonneg (by norm_num) (div_nonneg (abs_nonneg _) (by norm_num))
  have h' : 0 ≤ w_xgb * p_xgb + w_lgb * p_lgb := h
  refine ⟨le_max_left _ _, ?_, ?_, rfl, rfl⟩
  · show max 0 (w_xgb * p_xgb + w_lgb * p_lgb -
        49 / 25 * npStd2 p_xgb p_lgb) ≤ w_xgb * p_xgb + w_lgb * p_lgb
    exact max_le h' (by linarith)
  · show w_xgb * p_xgb + w_lgb * p_lgb ≤
        w_xgb * p_xgb + w_lgb * p_lgb + 49 / 25 * npStd2 p_xgb p_lgb
    linarith

/-- C2, witness for the amended theorem: weights 1/2 each, learner
predictions 100 and 120, point estimate 110, dispersion 10, interval
[90.4, 129.6]. -/
theorem predict_interval_ordered_witness :
    0 ≤ (predictCore (1 / 2) (1 / 2) 100 120).price_lower ∧
    (predictCore (1 / 2) (1 / 2) 100 120).price_lower ≤
      (predictCore (1 / 2) (1 / 2) 100 120).predicted_price ∧
    (predictCore (1 / 2) (1 / 2) 100 120).predicted_price ≤
      (predictCore (1 / 2) (1 / 2) 100 120).price_upper ∧
    (predictCore (1 / 2) (1 / 2) 100 120).price_upper =
      (predictCore (1 / 2) (1 / 2) 100 120).predicted_price +
        49 / 25 * npStd2 100 120 ∧
    (predictCore (1 / 2) (1 / 2) 100 120).price_lower =
      max 0 ((predictCore (1 / 2) (1 / 2) 100 120).predicted_price -
        49 / 25 * npStd2 100 120) :=
  predict_interval_ordered (1 / 2) (1 / 2) 100 120
    (by norm_num [predictCore])

/-- C4, counterexample. On an untrained model the claim says
`get_feature_importance` fails with an untrained-model error; the source
instead returns the empty dictionary, a normal value (model_training.py
lines 161-162). -/
theorem untrained_importance_returns_empty :
    getFeatureImportance false [] [] = Except.ok [] := rfl

/-- C4, amended. On a model whose trained flag is false,
`HousePriceModel.predict` raises the untrained-model `ValueError`
(an error for that request, not a crash), while
`HousePriceModel.get_feature_importance` silently returns the empty
mapping instead of failing. -/
theorem untrained_model_behavior (w_xgb w_lgb p_xgb p_lgb : ℚ)
    (models : List (String × List ℚ)) (fnames : List String) :
    predictE false w_xgb w_lgb p_xgb p_lgb =
      Except.error "Model not trained yet!" ∧
    getFeatureImportance false models fnames = Except.ok [] :=
  ⟨rfl, rfl⟩

/-- C8. The confidence returned by `HousePriceModel.predict` equals
`1 - std / mean` of the two per-learner predictions when that mean is
strictly positive, equals the fixed fallback 0.8 = 4/5 otherwise, and is
at most 1 in every case. -/
theorem predict_confidence_formula (w_xgb w_lgb p_xgb p_lgb : ℚ) :
    ((predictCore w_xgb w_lgb p_xgb p_lgb).confidence =
      if 0 < npMean2 p_xgb p_lgb then
        1 - npStd2 p_xgb p_lgb / npMean2 p_xgb p_lgb
      else 4 / 5) ∧
    (predictCore w_xgb w_lgb p_xgb p_lgb).confidence ≤ 1 := by
  constructor
  · rfl
  · simp only [predictCore]
    split_ifs with h
    · have hq : 0 ≤ npStd2 p_xgb p_lgb / npMean2 p_xgb p_lgb :=
        div_nonneg (div_nonneg (abs_nonneg _) (by norm_num)) (le_of_lt h)
      linarith
    · norm_num

/-- C9. A model trained by `HousePriceModel.train` holds exactly the
learners `xgboost` and `lightgbm`, yet `get_feature_importance`
unconditionally reads `models['catboost']` (model_training.py line 175):
on every such trained model the call ends in a `KeyError` and never
returns the averaged importance mapping. -/
theorem trained_importance_keyerror (xgb_imp lgb_imp : List ℚ)
    (fnames : List String) :
    getFeatureImportance true
      [("xgboost", xgb_imp), ("lightgbm", lgb_imp)] fnames =
      Except.error "KeyError: catboost" := rfl

/-- C5. `compare_to_market` returns the neutral unknown verdict with
zero deviation on an empty price list; on a non-empty list (with nonzero
mean, so the percentage is a finite number) it computes
`pctDiff = (predicted - mean) / mean * 100` and classifies overpriced
iff `pctDiff > 10`, underpriced iff `pctDiff < -10`, and fair
otherwise. -/
theorem compare_to_market_contract (p : ℚ) (ps : List ℚ)
    (hne : ps ≠ []) (hm : mean ps ≠ 0) :
    (compare_to_market p []).status = "unknown" ∧
    (compare_to_market p []).difference_pct = 0 ∧
    (compare_to_market p ps).difference_pct =
      (p - mean ps) / mean ps * 100 ∧
    ((compare_to_market p ps).status = "overpriced" ↔
      10 < (p - mean ps) / mean ps * 100) ∧
    ((compare_to_market p ps).status = "underpriced" ↔
      (p - mean ps) / mean ps * 100 < -10) ∧
    ((compare_to_market p ps).status = "fair" ↔
      ¬ 10 < (p - mean ps) / mean ps * 100 ∧
      ¬ (p - mean ps) / mean ps * 100 < -10) := by
  refine ⟨rfl, rfl, ?_, ?_, ?_, ?_⟩ <;>
    · simp only [compare_to_market, if_neg hne]
      split_ifs with h1 h2 <;> simp_all <;> linarith

/-- C5, witness at the spec scenario: predicted price 6,000,000 against
similar prices [5,000,000; 5,200,000; 5,100,000] (mean 5,100,000,
pctDiff about 17.6, overpriced). -/
theorem compare_to_market_contract_witness :
    (compare_to_market 6000000 []).status = "unknown" ∧
    (compare_to_market 6000000 []).difference_pct = 0 ∧
    (compare_to_market 6000000 [5000000, 5200000, 5100000]).difference_pct =
      ((6000000 : ℚ) - mean [5000000, 5200000, 5100000]) /
        mean [5000000, 5200000, 5100000] * 100 ∧
    ((compare_to_market 6000000 [5000000, 5200000, 5100000]).status =
        "overpriced" ↔
      10 < ((6000000 : ℚ) - mean [5000000, 5200000, 5100000]) /
        mean [5000000, 5200000, 5100000] * 100) ∧
    ((compare_to_market 6000000 [5000000, 5200000, 5100000]).status =
        "underpriced" ↔
      ((6000000 : ℚ) - mean [5000000, 5200000, 5100000]) /
        mean [5000000, 5200000, 5100000] * 100 < -10) ∧
    ((compare_to_market 6000000 [5000000, 5200000, 5100000]).status =
        "fair" ↔
      ¬ 10 < ((6000000 : ℚ) - mean [5000000, 5200000, 5100000]) /
        mean [5000000, 5200000, 5100000] * 100 ∧
      ¬ ((6000000 : ℚ) - mean [5000000, 5200000, 5100000]) /
        mean [5000000, 5200000, 5100000] * 100 < -10) :=
  compare_to_market_contract 6000000 [5000000, 5200000, 5100000]
    (by simp) (by norm_num [mean])

/-- C6. The similarity score `1/(1+d)` of `get_similar_properties` lies
in (0,1] for every non-negative distance, equals 1 exactly at distance
0, and is strictly decreasing in the distance. -/
theorem similarity_score_props (d e : ℚ) (hd : 0 ≤ d) (hde : d < e) :
    0 < similarity_score d ∧ similarity_score d ≤ 1 ∧
      (similarity_score d = 1 ↔ d = 0) ∧
      similarity_score e < similarity_score d := by
  have h1 : (0 : ℚ) < 1 + d := by linarith
  have h2 : (0 : ℚ) < 1 + e := by linarith
  refine ⟨?_, ?_, ?_, ?_⟩
  · rw [similarity_score]
    exact div_pos one_pos h1
  · rw [similarity_score, div_le_one h1]
    linarith
  · rw [similarity_score, div_eq_one_iff_eq (ne_of_gt h1)]
    constructor
    · intro hh
      linarith
    · intro hh
      rw [hh]
      norm_num
  · rw [similarity_score, similarity_score]
    exact one_div_lt_one_div_of_lt h1 (by linarith)

/-- C6, witness at distances 0 and 1: score 1 at distance 0, score 1/2
at distance 1. -/
theorem similarity_score_props_witness :
    0 < similarity_score 0 ∧ similarity_score 0 ≤ 1 ∧
      (similarity_score 0 = 1 ↔ (0 : ℚ) = 0) ∧
      similarity_score 1 < similarity_score 0 :=
  similarity_score_props 0 1 (by norm_num) (by norm_num)

/-- C7, counterexample. The claim says the mape computation guards the
division by the true target; the source divides unguarded
(model_training.py line 122), so a test partition with a zero true
price, here y_true = [0] and y_pred = [1], yields a non-finite metric
(modelled by `none`). -/
theorem mape_zero_target_undefined : mape [0] [1] = none := rfl

/-- C7, amended. The mape computation has no zero-guard: it is a finite
value (the mean absolute relative error times 100) exactly when every
true target in the test partition is nonzero, and a zero-valued true
price makes the metric non-finite. -/
theorem mape_defined_of_nonzero (y_true y_pred : List ℚ)
    (h0 : ∀ t ∈ y_true, t ≠ 0) :
    mape y_true y_pred =
      some (mean (((y_true.zip y_pred).map
        (fun q => (q.1 - q.2) / q.1)).map abs) * 100) := by
  rw [mape, mapM_eq_some_map]
  · rfl
  · intro q hq
    rw [fdiv, if_neg (h0 q.1 (List.of_mem_zip hq).1)]

/-- C7, witness: y_true = [2], y_pred = [1] has no zero target and mape
evaluates to the finite value 50. -/
theorem mape_defined_of_nonzero_witness :
    mape [2] [1] =
      some (mean ((([(2 : ℚ)].zip [1]).map
        (fun q => (q.1 - q.2) / q.1)).map abs) * 100) :=
  mape_defined_of_nonzero [2] [1]
    (by
      intro t ht
      rcases List.mem_cons.mp ht with h | h
      · rw [h]
        norm_num
      · exact absurd h (List.not_mem_nil t))

/-- C10. The emptiness check is the only guard in `compare_to_market`:
the non-empty list [0] has mean 0, passes the guard, and reaches the
percentage division with a zero divisor (`avg_similar_price = some 0`
in the returned verdict; in numpy the division yields a non-finite
float). -/
theorem compare_to_market_zero_mean_unguarded :
    ([(0 : ℚ)] ≠ []) ∧ mean [(0 : ℚ)] = 0 ∧
      (compare_to_market 100 [0]).avg_similar_price = some 0 ∧
      (compare_to_market 100 [0]).status ≠ "unknown" := by
  refine ⟨by simp, by norm_num [mean], ?_, ?_⟩
  · simp only [compare_to_market, mean]
    norm_num
  · simp only [compare_to_market, mean]
    norm_num
    decide

end HousePrice
